import Mathlib

/-!
Shallow embedding of the vibecharting trend-analysis core
(`src/trend_analysis_ec2/` and the query-processor lambda), with theorems
settling the specification claims about it.

Numbers are modelled by `ℚ`; Python `None` by `Option`; timestamps by
rationals counting days since an (arbitrary) epoch falling on a Monday
00:00 UTC, so that Python `datetime.weekday()` becomes `⌊t⌋ % 7` and
`timedelta.days` becomes `⌊t₁ - t₂⌋`.
-/

namespace VibeCharting

/-- Python `max(0.0, min(1.0, x))`, the clamp to [0,1] used by the spec. -/
def clamp01 (x : ℚ) : ℚ := max 0 (min x 1)

/-- `min` of a nonempty Python list (0 on the empty list, which never occurs
on the guarded call sites). -/
def listMin : List ℚ → ℚ
  | [] => 0
  | x :: xs => xs.foldl min x

/-- `max` of a nonempty Python list (0 on the empty list, which never occurs
on the guarded call sites). -/
def listMax : List ℚ → ℚ
  | [] => 0
  | x :: xs => xs.foldl max x

/-- `np.mean` of a list (ℚ division by 0 yields 0 for the empty list;
all call sites guard nonemptiness). -/
def listMean (l : List ℚ) : ℚ := l.sum / l.length

/-! ## ConfidenceModel (src/trend_analysis_ec2/confidence_model.py) -/

namespace ConfidenceModel

/-- Component weights `ConfidenceModel.WEIGHTS` (confidence_model.py lines 16-21). -/
def w_trend_strength : ℚ := 0.40
def w_momentum : ℚ := 0.30
def w_volatility : ℚ := 0.20
def w_noise : ℚ := 0.10

/-- Trend-strength component from ADX (confidence_model.py lines 47-58). -/
def trend_score (adx_value : Option ℚ) : ℚ :=
  match adx_value with
  | none => 0.5
  | some adx =>
    if adx < 20 then 0
    else if adx < 25 then 0.25
    else if adx < 40 then 0.50 + (adx - 25) / 30
    else 1

/-- Momentum-confirmation component from the MACD histogram percentile
(confidence_model.py lines 62-74). -/
def momentum_score (macd_histogram_percentile : Option ℚ) : ℚ :=
  match macd_histogram_percentile with
  | none => 0.5
  | some p =>
    if p > 80 ∨ p < 20 then 0.9
    else if p > 70 ∨ p < 30 then 0.7
    else if p > 60 ∨ p < 40 then 0.5
    else 0.3

/-- Volatility-context component from the Bollinger bandwidth percentile
(confidence_model.py lines 78-99).  `signal_type in ['squeeze_breakout',
'bollinger_breakout']` is false when signal_type is None. -/
def volatility_score (bollinger_bandwidth_percentile : Option ℚ)
    (signal_type : Option String) : ℚ :=
  match bollinger_bandwidth_percentile with
  | none => 0.5
  | some b =>
    if signal_type = some "squeeze_breakout" ∨ signal_type = some "bollinger_breakout" then
      if b < 10 then 1
      else if b < 25 then 0.8
      else if b < 50 then 0.5
      else 0.3
    else
      if 30 ≤ b ∧ b ≤ 70 then 0.8
      else if 20 ≤ b ∧ b ≤ 80 then 0.6
      else 0.4

/-- Statistical-noise component from the short-term regression p-value
(confidence_model.py lines 103-116). -/
def noise_score (recent_price_pvalue : Option ℚ) : ℚ :=
  match recent_price_pvalue with
  | none => 0.5
  | some p =>
    if p < 0.01 then 1
    else if p < 0.05 then 0.8
    else if p < 0.10 then 0.6
    else if p < 0.20 then 0.4
    else 0.2

/-- `ConfidenceModel._apply_signal_adjustments` (confidence_model.py lines 139-159). -/
def apply_signal_adjustments (base_confidence : ℚ) (signal_type : String)
    (trend_strength momentum_confirmation : ℚ) : ℚ :=
  if signal_type = "golden_cross" ∨ signal_type = "death_cross" then
    if trend_strength > 0.7 then base_confidence * 1.1 else base_confidence
  else if signal_type = "macd_bullish" ∨ signal_type = "macd_bearish" then
    if momentum_confirmation < 0.3 then base_confidence * 0.8 else base_confidence
  else if signal_type = "rsi_oversold" ∨ signal_type = "rsi_overbought" then
    if trend_strength < 0.3 then base_confidence * 0.7 else base_confidence
  else base_confidence

/-- Python truthiness of the optional `signal_type` string:
`if signal_type:` is false for None and for the empty string. -/
def signal_type_truthy : Option String → Bool
  | none => false
  | some s => s ≠ ""

/-- `ConfidenceModel.calculate_confidence` (confidence_model.py lines 23-137),
returning the `overall_confidence` entry of the result dict. -/
def calculate_confidence (adx_value macd_histogram_percentile
    bollinger_bandwidth_percentile recent_price_pvalue : Option ℚ)
    (signal_type : Option String) : ℚ :=
  let t := trend_score adx_value
  let m := momentum_score macd_histogram_percentile
  let v := volatility_score bollinger_bandwidth_percentile signal_type
  let n := noise_score recent_price_pvalue
  let overall := w_trend_strength * t + w_momentum * m + w_volatility * v + w_noise * n
  let adjusted :=
    match signal_type with
    | none => overall
    | some s => if s ≠ "" then apply_signal_adjustments overall s t m else overall
  max 0 (min 1 adjusted)

/-- `scipy.stats.percentileofscore(a, score)` with the default
`kind='rank'`: with `left = #{x ∈ a | x < score}` and
`right = #{x ∈ a | x ≤ score}`, the result is
`(left + right + (1 if right > left else 0)) * 50 / n`
(and 100 on an empty input). -/
def percentileofscore_rank (a : List ℚ) (score : ℚ) : ℚ :=
  if a.length = 0 then 100
  else
    let left := (a.filter (fun x => x < score)).length
    let right := (a.filter (fun x => x ≤ score)).length
    ((left : ℚ) + right + (if left < right then 1 else 0)) * 50 / a.length

/-- `ConfidenceModel.calculate_histogram_percentile`
(confidence_model.py lines 180-191). -/
def calculate_histogram_percentile (current_value : ℚ)
    (historical_values : List ℚ) : Option ℚ :=
  if historical_values.isEmpty ∨ historical_values.length < 20 then none
  else some (percentileofscore_rank historical_values current_value)

end ConfidenceModel

/-! ## Legacy trend analyzer (src/trend_analysis_ec2/run_trend_analysis.py,
`analyze_trend`, lines 133-216).  The outputs of
`scipy.stats.linregress` (r², p-value) and the volatility coefficient
`np.std(prices)/np.mean(prices)*100` involve square roots and the
t-distribution, so the post-regression arithmetic is embedded as a function
of those statistics; the claims quantify over all their possible values. -/

/-- `price_change_percent = ((prices[-1] - prices[0]) / prices[0]) * 100`
(run_trend_analysis.py line 160). -/
def price_change_percent (prices : List ℚ) : ℚ :=
  ((prices.getLast?.getD 0) - (prices.head?.getD 0)) / (prices.head?.getD 0) * 100

/-- Trend classification from the price-change percentage
(run_trend_analysis.py lines 164-172). -/
def classify_trend (pcp : ℚ) : String :=
  if |pcp| < 1 then "sideways"
  else if pcp > 5 then "uptrend"
  else if pcp < -5 then "downtrend"
  else "sideways"

/-- The `trend_type` computed by `analyze_trend` on the filtered price list. -/
def analyze_trend_type (prices : List ℚ) : String :=
  classify_trend (price_change_percent prices)

/-- Trend classification of the lambda analyzer
`TrendAnalyzer._classify_trend_improved`
(src/lambda_functions/trend_analysis/analyzers/trend_analyzer.py lines 139-147),
which uses the same thresholds. -/
def classify_trend_improved (pcp : ℚ) : String :=
  if |pcp| < 1 then "sideways"
  else if pcp > 5 then "uptrend"
  else if pcp < -5 then "downtrend"
  else "sideways"

/-- `timeframe_boost` dict lookup with default 0.0
(run_trend_analysis.py lines 178-182). -/
def timeframe_boost (timeframe : String) : ℚ :=
  if timeframe = "7d" then 0.1
  else if timeframe = "14d" then 0.2
  else if timeframe = "30d" then 0.3
  else 0

/-- `significance_boost` (run_trend_analysis.py lines 185-190). -/
def significance_boost (p_value : ℚ) : ℚ :=
  if p_value < 0.05 then 0.2
  else if p_value < 0.1 then 0.1
  else 0

/-- `volatility_penalty = min(volatility / 100, 0.3)`
(run_trend_analysis.py line 193). -/
def volatility_penalty (volatility : ℚ) : ℚ := min (volatility / 100) 0.3

/-- The confidence computed by `analyze_trend`
(run_trend_analysis.py lines 174-197) as a function of the regression
statistics: `min(r² + timeframe_boost + significance_boost - volatility_penalty, 1.0)`
then `max(·, 0.0)`. -/
def analyze_trend_confidence (r_squared p_value volatility : ℚ)
    (timeframe : String) : ℚ :=
  max (min (r_squared + timeframe_boost timeframe + significance_boost p_value
      - volatility_penalty volatility) 1) 0

/-! Spec-side definitions for the refinement claims, written from the
spec's words (spec.md §4.4 step 5). -/

/-- Modelled from the spec: "timeframe_bonus ∈ {7d:0.1, 14d:0.2, 30d:0.3}". -/
def spec_timeframe_bonus (timeframe : String) : ℚ :=
  if timeframe = "7d" then 0.1
  else if timeframe = "14d" then 0.2
  else 0.3

/-- Modelled from the spec: "significance_bonus ∈ {p<0.05:0.2, p<0.10:0.1, else 0}". -/
def spec_significance_bonus (p_value : ℚ) : ℚ :=
  if p_value < 0.05 then 0.2
  else if p_value < 0.10 then 0.1
  else 0

/-! ## Signal detection (src/trend_analysis_ec2/run_trend_analysis.py,
`detect_signals_sliding_window` / `detect_signals_in_window`, lines 218-274
and 560-658).  A price point is one row of `price_data`; its timestamp is a
rational number of days since an epoch falling on a Monday 00:00 UTC. -/

/-- One `price_data` row: timestamp (days since a Monday epoch), price, volume. -/
structure PricePoint where
  ts : ℚ
  price : ℚ
  volume : ℚ
deriving DecidableEq, Repr

/-- A signal event as built by `detect_signals_in_window`.  The field
`volume_spike_factor` embeds the source's volume-spike ratio field, and the
last four fields embed the metadata entries the quality gate reads. -/
structure Signal where
  signal_type : String
  detected_at : ℚ
  confidence : ℚ
  trigger_price : Option ℚ
  volume_spike_factor : Option ℚ
  pump_percent : Option ℚ
  dump_percent : Option ℚ
  downtrend_percent : Option ℚ
  recovery_percent : Option ℚ
deriving DecidableEq, Repr

/-- Block 1 of `detect_signals_in_window`: pump-and-dump detection
(run_trend_analysis.py lines 570-607), splitting at index 6 into the first
6 points and the rest. -/
def pump_dump_in_window (window_data : List PricePoint) : List Signal :=
  let prices := window_data.map PricePoint.price
  let volumes := window_data.map PricePoint.volume
  if 12 ≤ prices.length then
    let pump_window := prices.take 6
    let dump_window := prices.drop 6
    if 3 ≤ pump_window.length ∧ 3 ≤ dump_window.length then
      let pump_start := listMin pump_window
      let pump_peak := listMax pump_window
      let dump_end := listMin dump_window
      let pump_pct := (pump_peak - pump_start) / pump_start * 100
      let dump_pct := (dump_end - pump_peak) / pump_peak * 100
      if pump_pct > 50 ∧ dump_pct < -30 then
        let pump_volumes := volumes.take 6
        let avg_volume := listMean pump_volumes
        let max_volume := listMax pump_volumes
        let spike := if avg_volume > 0 then max_volume / avg_volume else 1
        if spike ≥ 3 ∧ pump_pct ≥ 50 ∧ dump_pct ≤ -30 then
          [{ signal_type := "pump_and_dump",
             detected_at := ((window_data.drop 6).head?.map PricePoint.ts).getD 0,
             confidence := min ((pump_pct + |dump_pct|) / 120) 1,
             trigger_price := some pump_peak,
             volume_spike_factor := some spike,
             pump_percent := some pump_pct,
             dump_percent := some dump_pct,
             downtrend_percent := none,
             recovery_percent := none }]
        else []
      else []
    else []
  else []

/-- Block 2 of `detect_signals_in_window`: volume-anomaly detection
(run_trend_analysis.py lines 609-630). -/
def volume_anomaly_in_window (window_data : List PricePoint) : List Signal :=
  let volumes := window_data.map PricePoint.volume
  if 7 ≤ volumes.length then
    let baseline_volumes := volumes.dropLast
    let spike_volume := volumes.getLast?.getD 0
    let avg_volume := listMean baseline_volumes
    if avg_volume > 0 ∧ spike_volume > avg_volume * 5 then
      [{ signal_type := "volume_anomaly",
         detected_at := (window_data.getLast?.map PricePoint.ts).getD 0,
         confidence := min (spike_volume / (avg_volume * 8)) 1,
         trigger_price := none,
         volume_spike_factor := some (spike_volume / avg_volume),
         pump_percent := none, dump_percent := none,
         downtrend_percent := none, recovery_percent := none }]
    else []
  else []

/-- Block 3 of `detect_signals_in_window`: bottomed-out detection
(run_trend_analysis.py lines 632-656). -/
def bottomed_out_in_window (window_data : List PricePoint) : List Signal :=
  let prices := window_data.map PricePoint.price
  if 14 ≤ prices.length then
    let downtrend_prices := prices.take 7
    let recovery_prices := prices.drop 7
    if 5 ≤ downtrend_prices.length ∧ 5 ≤ recovery_prices.length then
      let downtrend := ((downtrend_prices.getLast?.getD 0) - (downtrend_prices.head?.getD 0))
          / (downtrend_prices.head?.getD 0) * 100
      let recovery := ((recovery_prices.getLast?.getD 0) - (recovery_prices.head?.getD 0))
          / (recovery_prices.head?.getD 0) * 100
      if downtrend < -15 ∧ recovery > 10 then
        [{ signal_type := "bottomed_out",
           detected_at := (window_data.getLast?.map PricePoint.ts).getD 0,
           confidence := min ((|downtrend| + recovery) / 40) 1,
           trigger_price := some (recovery_prices.getLast?.getD 0),
           volume_spike_factor := none,
           pump_percent := none, dump_percent := none,
           downtrend_percent := some downtrend,
           recovery_percent := some recovery }]
      else []
    else []
  else []

/-- `detect_signals_in_window` (run_trend_analysis.py lines 560-658): the
three detector blocks append their signals in order. -/
def detect_signals_in_window (window_data : List PricePoint) : List Signal :=
  if window_data.length < 7 then []
  else
    pump_dump_in_window window_data ++ volume_anomaly_in_window window_data
      ++ bottomed_out_in_window window_data

/-- The start indices of Python `range(0, n - w + 1, 3)` (assuming `w ≤ n`). -/
def window_starts (n w : ℕ) : List ℕ := List.range' 0 ((n - w) / 3 + 1) 3

/-- The windows scanned for one window size (run_trend_analysis.py
lines 233-241): contiguous slices of length `w` starting every 3 points. -/
def windows_of (sorted_data : List PricePoint) (w : ℕ) : List (List PricePoint) :=
  if w ≤ sorted_data.length then
    (window_starts sorted_data.length w).map (fun s => (sorted_data.drop s).take w)
  else []

/-- Python `abs((s.detected_at - e.detected_at).days) < 3` with same
`signal_type` (run_trend_analysis.py lines 248-249); `timedelta.days`
is the floor of the signed difference in days. -/
def is_duplicate (s e : Signal) : Bool :=
  s.signal_type == e.signal_type &&
    decide (|Int.floor (s.detected_at - e.detected_at)| < 3)

/-- The duplicate-removal loop (run_trend_analysis.py lines 243-253):
keep a signal unless it duplicates an already-kept one. -/
def dedup_signals : List Signal → List Signal → List Signal
  | acc, [] => acc
  | acc, s :: rest =>
    if acc.any (fun existing => is_duplicate s existing) then dedup_signals acc rest
    else dedup_signals (acc ++ [s]) rest

/-- `detected_at.weekday()`: with the epoch on a Monday this is `⌊t⌋ % 7`. -/
def weekday (t : ℚ) : ℤ := Int.floor t % 7

/-- `week_start = detected_at - timedelta(days=detected_at.weekday())`
(run_trend_analysis.py line 261); note the time of day is preserved. -/
def week_start (t : ℚ) : ℚ := t - (weekday t : ℚ)

/-- The count `signal_counts[signal_key][week_start]` held for the kept
signals `acc` at the key of `s` (the asset is fixed, so the key is the
signal type together with the computed week start). -/
def week_count (acc : List Signal) (s : Signal) : ℕ :=
  (acc.filter (fun e => e.signal_type == s.signal_type &&
    decide (week_start e.detected_at = week_start s.detected_at))).length

/-- The per-week rate limit loop (run_trend_analysis.py lines 255-272):
keep a signal only while fewer than 2 signals with the same
(signal_type, week_start) key have been kept. -/
def weekly_limit : List Signal → List Signal → List Signal
  | acc, [] => acc
  | acc, s :: rest =>
    if week_count acc s < 2 then weekly_limit (acc ++ [s]) rest
    else weekly_limit acc rest

/-- `detect_signals_sliding_window` (run_trend_analysis.py lines 218-274). -/
def detect_signals_sliding_window (price_data : List PricePoint) : List Signal :=
  if price_data.length < 14 then []
  else
    let sorted_data := price_data.insertionSort (fun a b => a.ts ≤ b.ts)
    let signals := ([7, 14, 21] : List ℕ).flatMap
      (fun w => (windows_of sorted_data w).flatMap detect_signals_in_window)
    weekly_limit [] (dedup_signals [] signals)

/-! Spec-side model of the in-window pump-and-dump detector, for the
refinement comparison. -/

/-- Modelled from the spec (spec.md §4.5): "split into two halves,
pump_half (first) and dump_half (last)", pump% and dump% from those halves,
"trigger when pump% > 50 and dump% < −30 and pump_half_volume_spike_ratio
≥ 3.0" (the volume-spike ratio of a half being max/mean of its volumes,
as in the source).  Returns whether the claimed detector fires on a window
of at least 12 points. -/
def spec_pump_and_dump_fires (window_data : List PricePoint) : Bool :=
  if window_data.length < 12 then false
  else
    let prices := window_data.map PricePoint.price
    let volumes := window_data.map PricePoint.volume
    let half := prices.length / 2
    let pump_half := prices.take half
    let dump_half := prices.drop half
    let pump_pct := (listMax pump_half - listMin pump_half) / listMin pump_half * 100
    let dump_pct := (listMin dump_half - listMax pump_half) / listMax pump_half * 100
    let pump_volumes := volumes.take half
    let avg_volume := listMean pump_volumes
    let spike := if avg_volume > 0 then listMax pump_volumes / avg_volume else 1
    decide (pump_pct > 50 ∧ dump_pct < -30 ∧ spike ≥ 3)

/-! ## AdaptiveThresholds (src/trend_analysis_ec2/adaptive_thresholds.py) -/

/-- `pandas.Series.median`: middle element of the sorted list, or the mean
of the two middle elements for even length (0 on the empty list, which the
call sites guard). -/
def median (l : List ℚ) : ℚ :=
  let s := l.insertionSort (· ≤ ·)
  let n := s.length
  if n = 0 then 0
  else if n % 2 = 1 then s.getD (n / 2) 0
  else (s.getD (n / 2 - 1) 0 + s.getD (n / 2) 0) / 2

/-- The volume-threshold dict returned by
`AdaptiveThresholds.get_adaptive_volume_threshold`; `spike_threshold` is an
extended rational since the insufficient-history branch returns
`float('inf')`.  The additional 90/95/99-percentile entries of the full
branch are not referenced by any claim and are not modelled. -/
structure VolumeThresholds where
  spike_threshold : WithTop ℚ
  baseline : ℚ
  mad : Option ℚ
deriving DecidableEq

/-- `AdaptiveThresholds.get_adaptive_volume_threshold`
(adaptive_thresholds.py lines 115-155). -/
def get_adaptive_volume_threshold (volume_series : List ℚ)
    (lookback : ℕ := 30) (spike_sensitivity : ℚ := 3) : VolumeThresholds :=
  if volume_series.length < lookback then
    { spike_threshold := ⊤, baseline := 0, mad := none }
  else
    let recent := volume_series.drop (volume_series.length - lookback)
    let baseline := median recent
    let mad := median (recent.map (fun v => |v - baseline|))
    { spike_threshold := ((baseline + spike_sensitivity * mad * 1.4826 : ℚ) : WithTop ℚ),
      baseline := baseline,
      mad := some mad }

/-! ## Query processor read path
(src/lambda_functions/query_processor/handler.py line 89 and
database.py `_get_timeframe_cutoff`, lines 592-605).
Times on this path are rational hours relative to `now`. -/

/-- `limit = min(filters.get('limit', 10), 50)` (handler.py line 89). -/
def effective_limit (requested : Option ℤ) : ℤ := min (requested.getD 10) 50

/-- `DatabaseClient._get_timeframe_cutoff` (database.py lines 592-605),
with `now_h` the current time in hours. -/
def get_timeframe_cutoff (now_h : ℚ) (timeframe : String) : ℚ :=
  if timeframe = "1h" then now_h - 1
  else if timeframe = "24h" then now_h - 24
  else if timeframe = "7d" then now_h - 7 * 24
  else if timeframe = "30d" then now_h - 30 * 24
  else now_h - 24

/-! ## Concrete data used by counterexamples and witnesses -/

/-- 19 half-daily points: constant price, volume 1 except spikes of 100 at
indices 13 and 18 (timestamps in days: 6.5 and 9). -/
def exData : List PricePoint :=
  [⟨0, 1, 1⟩, ⟨1/2, 1, 1⟩, ⟨1, 1, 1⟩, ⟨3/2, 1, 1⟩, ⟨2, 1, 1⟩,
   ⟨5/2, 1, 1⟩, ⟨3, 1, 1⟩, ⟨7/2, 1, 1⟩, ⟨4, 1, 1⟩, ⟨9/2, 1, 1⟩,
   ⟨5, 1, 1⟩, ⟨11/2, 1, 1⟩, ⟨6, 1, 1⟩, ⟨13/2, 1, 100⟩, ⟨7, 1, 1⟩,
   ⟨15/2, 1, 1⟩, ⟨8, 1, 1⟩, ⟨17/2, 1, 1⟩, ⟨9, 1, 100⟩]

/-- A 14-point window whose price peak sits at index 6: inside the first
half (7 points) but outside the first 6 points. -/
def exWin14 : List PricePoint :=
  [⟨0, 100, 1⟩, ⟨1, 100, 1⟩, ⟨2, 100, 1⟩, ⟨3, 100, 1⟩, ⟨4, 100, 1⟩,
   ⟨5, 100, 1⟩, ⟨6, 180, 5⟩, ⟨7, 60, 1⟩, ⟨8, 60, 1⟩, ⟨9, 60, 1⟩,
   ⟨10, 60, 1⟩, ⟨11, 60, 1⟩, ⟨12, 60, 1⟩, ⟨13, 60, 1⟩]

/-- A 14-point window on which the in-window pump-and-dump detector fires:
pump to 180 inside the first 6 points, then decay. -/
def exWin14b : List PricePoint :=
  [⟨0, 100, 1⟩, ⟨1, 100, 1⟩, ⟨2, 100, 1⟩, ⟨3, 100, 1⟩, ⟨4, 100, 1⟩,
   ⟨5, 180, 5⟩, ⟨6, 120, 1⟩, ⟨7, 110, 1⟩, ⟨8, 100, 1⟩, ⟨9, 90, 1⟩,
   ⟨10, 80, 1⟩, ⟨11, 70, 1⟩, ⟨12, 60, 1⟩, ⟨13, 50, 1⟩]

/-- Twenty history values all equal to 5, for the C7 counterexample. -/
def hist20 : List ℚ :=
  [5, 5, 5, 5, 5, 5, 5, 5, 5, 5, 5, 5, 5, 5, 5, 5, 5, 5, 5, 5]

/-- Twenty distinct history values 0..19, for the C7 witness. -/
def hist20d : List ℚ :=
  [0, 1, 2, 3, 4, 5, 6, 7, 8, 9, 10, 11, 12, 13, 14, 15, 16, 17, 18, 19]

/-! # Theorems settling the claims -/

/-- The kept-list invariant of the duplicate-removal loop: a signal is
appended only when it duplicates no already-kept signal. -/
lemma dedup_signals_pairwise :
    ∀ (l acc : List Signal),
      acc.Pairwise (fun e s => is_duplicate s e = false) →
      (dedup_signals acc l).Pairwise (fun e s => is_duplicate s e = false) := by
  intro l
  induction l with
  | nil => intro acc h; exact h
  | cons s rest ih =>
    intro acc h
    rw [dedup_signals]
    split_ifs with hdup
    · exact ih acc h
    · apply ih
      rw [List.pairwise_append]
      refine ⟨h, List.pairwise_singleton _ _, ?_⟩
      intro e he b hb
      rw [List.mem_singleton] at hb
      subst hb
      simp only [List.any_eq_true, not_exists, not_and] at hdup
      push_neg at hdup
      exact Bool.eq_false_iff.mpr (hdup e he)

/-- The weekly rate-limit loop only ever removes signals. -/
lemma weekly_limit_sublist :
    ∀ (l acc : List Signal), (weekly_limit acc l).Sublist (acc ++ l) := by
  intro l
  induction l with
  | nil => intro acc; rw [weekly_limit, List.append_nil]
  | cons s rest ih =>
    intro acc
    rw [weekly_limit]
    split_ifs
    · have h1 := ih (acc ++ [s])
      simpa using h1
    · exact (ih acc).trans
        (List.Sublist.append_left (List.sublist_cons_self s rest) acc)

/-- The weekly rate-limit loop keeps at most 2 signals per
(signal_type, week_start) key. -/
lemma weekly_limit_count (ty : String) (wk : ℚ) :
    ∀ (l acc : List Signal),
      ((acc.filter (fun s => s.signal_type == ty &&
          decide (week_start s.detected_at = wk))).length ≤ 2) →
      (((weekly_limit acc l).filter (fun s => s.signal_type == ty &&
          decide (week_start s.detected_at = wk))).length ≤ 2) := by
  intro l
  induction l with
  | nil => intro acc h; rw [weekly_limit]; exact h
  | cons s rest ih =>
    intro acc h
    rw [weekly_limit]
    split_ifs with hcnt
    · apply ih
      by_cases hP : (s.signal_type == ty && decide (week_start s.detected_at = wk)) = true
      · have hP2 : s.signal_type = ty ∧ week_start s.detected_at = wk := by
          simpa using hP
        have heq : week_count acc s = (acc.filter (fun e => e.signal_type == ty &&
            decide (week_start e.detected_at = wk))).length := by
          unfold week_count
          congr 1
          apply List.filter_congr
          intro e he
          rw [hP2.1, hP2.2]
        rw [List.filter_append, List.length_append]
        have hs1 : ([s].filter (fun e => e.signal_type == ty &&
            decide (week_start e.detected_at = wk))).length = 1 := by
          simp [List.filter, hP]
        rw [hs1]
        rw [heq] at hcnt
        omega
      · rw [List.filter_append, List.length_append]
        have hs0 : ([s].filter (fun e => e.signal_type == ty &&
            decide (week_start e.detected_at = wk))).length = 0 := by
          simp only [List.filter, hP]
          rfl
        omega
    · exact ih acc h

/-- C5 counterexample: on `exData` the sliding-window detection returns two
volume_anomaly signals whose detected_at timestamps (9 and 6.5 days) are
only 2.5 days apart.  The later-emitted candidate has the earlier
timestamp, so Python `timedelta.days` floors −2.5 to −3 and the
duplicate filter keeps both. -/
theorem C5_counterexample :
    (detect_signals_sliding_window exData).map Signal.signal_type
        = ["volume_anomaly", "volume_anomaly"] ∧
    (detect_signals_sliding_window exData).map Signal.detected_at = [9, 13/2] ∧
    |(9 : ℚ) - 13/2| < 3 := by
  have hsorted : List.Sorted (fun a b : PricePoint => a.ts ≤ b.ts) exData := by
    norm_num [exData, List.sorted_cons]
  have hsort := List.Sorted.insertionSort_eq hsorted
  have hw7 : window_starts 19 7 = [0, 3, 6, 9, 12] := by decide
  have hw14 : window_starts 19 14 = [0, 3] := by decide
  have hlen : exData.length = 19 := by decide
  refine ⟨?_, ?_, by norm_num [abs_of_nonneg]⟩ <;>
  · rw [detect_signals_sliding_window]
    rw [if_neg (by decide : ¬ exData.length < 14)]
    dsimp only
    rw [hsort]
    rw [show ([7, 14, 21] : List ℕ).flatMap
        (fun w => (windows_of exData w).flatMap detect_signals_in_window) =
      (windows_of exData 7).flatMap detect_signals_in_window ++
      ((windows_of exData 14).flatMap detect_signals_in_window ++
       ((windows_of exData 21).flatMap detect_signals_in_window ++ [])) from rfl]
    rw [show windows_of exData 7 = (window_starts 19 7).map
        (fun s => (exData.drop s).take 7) from by rw [windows_of, if_pos (by decide), hlen]]
    rw [show windows_of exData 14 = (window_starts 19 14).map
        (fun s => (exData.drop s).take 14) from by rw [windows_of, if_pos (by decide), hlen]]
    rw [show windows_of exData 21 = [] from by rw [windows_of, if_neg (by decide)]]
    rw [hw7, hw14]
    norm_num [exData, detect_signals_in_window, pump_dump_in_window,
      volume_anomaly_in_window, bottomed_out_in_window, listMin, listMax,
      listMean, List.foldl, min_def, max_def, dedup_signals, is_duplicate,
      weekly_limit, week_count, week_start, weekday, List.filter]

/-- C5 amended: what the pipeline actually guarantees for every input
series.  (a) For any two returned signals, with e emitted before s, equal
signal types force |⌊s.detected_at − e.detected_at⌋| ≥ 3 in floored days
(Python `timedelta.days`) — which still allows true distances below 3 days
when the later-emitted signal has the earlier timestamp.  (b) At most 2
signals are returned per (signal_type, week_start) key, where week_start
subtracts the weekday but keeps the time of day, so it does not coincide
with the ISO week. -/
theorem C5_dedup_and_weekly_rule (price_data : List PricePoint) :
    ((detect_signals_sliding_window price_data).Pairwise (fun e s =>
      s.signal_type = e.signal_type →
        3 ≤ |Int.floor (s.detected_at - e.detected_at)|)) ∧
    (∀ ty : String, ∀ wk : ℚ,
      ((detect_signals_sliding_window price_data).filter
        (fun s => s.signal_type == ty &&
          decide (week_start s.detected_at = wk))).length ≤ 2) := by
  rw [detect_signals_sliding_window]
  split_ifs with hshort
  · exact ⟨List.Pairwise.nil, fun ty wk => by simp⟩
  · dsimp only
    constructor
    · have h1 := dedup_signals_pairwise
        (([7, 14, 21] : List ℕ).flatMap
          (fun w => (windows_of (price_data.insertionSort (fun a b => a.ts ≤ b.ts)) w).flatMap
            detect_signals_in_window)) [] List.Pairwise.nil
      have h2 := weekly_limit_sublist
        (dedup_signals []
          (([7, 14, 21] : List ℕ).flatMap
            (fun w => (windows_of (price_data.insertionSort (fun a b => a.ts ≤ b.ts)) w).flatMap
              detect_signals_in_window))) []
      rw [List.nil_append] at h2
      refine (List.Pairwise.sublist h2 h1).imp ?_
      intro e s hfalse hty
      simp only [is_duplicate, Bool.and_eq_false_iff, beq_eq_false_iff_ne, ne_eq,
        decide_eq_false_iff_not, not_lt] at hfalse
      rcases hfalse with hne | hge
      · exact absurd hty hne
      · exact hge
    · intro ty wk
      apply weekly_limit_count
      simp

/-- Bounds of the clamp `max 0 (min 1 x)`. -/
lemma clamp_lo_hi (x : ℚ) : 0 ≤ max 0 (min 1 x) ∧ max 0 (min 1 x) ≤ 1 :=
  ⟨le_max_left _ _, max_le (by norm_num) (min_le_left _ _)⟩

/-- Bounds of the clamp `max (min x 1) 0`. -/
lemma clamp_lo_hi2 (x : ℚ) : 0 ≤ max (min x 1) 0 ∧ max (min x 1) 0 ≤ 1 :=
  ⟨le_max_right _ _, max_le (min_le_right _ _) (by norm_num)⟩

/-- C1: every confidence emitted by the system lies in [0,1]: the
multi-factor `calculate_confidence` for every combination of (possibly
missing) inputs, and the legacy `analyze_trend` confidence for every value
of the regression statistics and every timeframe. -/
theorem C1_confidence_in_unit_interval :
    (∀ adx mhp bbp p st,
      0 ≤ ConfidenceModel.calculate_confidence adx mhp bbp p st ∧
      ConfidenceModel.calculate_confidence adx mhp bbp p st ≤ 1) ∧
    (∀ r_squared p_value volatility timeframe,
      0 ≤ analyze_trend_confidence r_squared p_value volatility timeframe ∧
      analyze_trend_confidence r_squared p_value volatility timeframe ≤ 1) := by
  constructor
  · intro adx mhp bbp p st
    exact clamp_lo_hi _
  · intro r_squared p_value volatility timeframe
    exact clamp_lo_hi2 _

/-- C2: the trend classifier depends only on the price-change percentage
Δ = (last − first)/first·100 with the stated thresholds: |Δ| < 1 →
sideways, Δ > 5 → uptrend, Δ < −5 → downtrend, otherwise sideways; in
particular Δ > 5 never yields downtrend and Δ < −5 never yields uptrend,
and the lambda classifier `_classify_trend_improved` uses the same rule. -/
theorem C2_trend_classification (prices : List ℚ) (h : 3 ≤ prices.length) :
    (|price_change_percent prices| < 1 → analyze_trend_type prices = "sideways") ∧
    (price_change_percent prices > 5 → analyze_trend_type prices = "uptrend") ∧
    (price_change_percent prices < -5 → analyze_trend_type prices = "downtrend") ∧
    (1 ≤ |price_change_percent prices| ∧ -5 ≤ price_change_percent prices ∧
      price_change_percent prices ≤ 5 → analyze_trend_type prices = "sideways") ∧
    (price_change_percent prices > 5 → analyze_trend_type prices ≠ "downtrend") ∧
    (price_change_percent prices < -5 → analyze_trend_type prices ≠ "uptrend") ∧
    (∀ pcp : ℚ, classify_trend_improved pcp = classify_trend pcp) := by
  unfold analyze_trend_type classify_trend classify_trend_improved
  set pcp := price_change_percent prices with hpcp
  refine ⟨?_, ?_, ?_, ?_, ?_, ?_, fun _ => rfl⟩ <;> intro hc
  · rw [if_pos hc]
  · have h1 : ¬ |pcp| < 1 := by rw [abs_lt]; push_neg; intro h2; linarith
    rw [if_neg h1, if_pos hc]
  · have h1 : ¬ |pcp| < 1 := by rw [abs_lt]; push_neg; intro h2; linarith
    have h2 : ¬ pcp > 5 := by linarith
    rw [if_neg h1, if_neg h2, if_pos hc]
  · obtain ⟨h1, h2, h3⟩ := hc
    have h4 : ¬ |pcp| < 1 := by linarith
    have h5 : ¬ pcp > 5 := by linarith
    have h6 : ¬ pcp < -5 := by linarith
    rw [if_neg h4, if_neg h5, if_neg h6]
  · have h1 : ¬ |pcp| < 1 := by rw [abs_lt]; push_neg; intro h2; linarith
    rw [if_neg h1, if_pos hc]
    decide
  · have h1 : ¬ |pcp| < 1 := by rw [abs_lt]; push_neg; intro h2; linarith
    have h2 : ¬ pcp > 5 := by linarith
    rw [if_neg h1, if_neg h2, if_pos hc]
    decide

/-- Witness for C2 at the concrete series [100, 100, 110] (Δ = 10%). -/
theorem C2_witness :
    3 ≤ ([100, 100, 110] : List ℚ).length ∧
    analyze_trend_type [100, 100, 110] = "uptrend" :=
  ⟨by decide,
   (C2_trend_classification [100, 100, 110] (by decide)).2.1
     (by norm_num [price_change_percent])⟩

/-- C3: for each accepted timeframe the legacy confidence equals
clamp01(r² + timeframe_bonus + significance_bonus − volatility_penalty)
with the spec's bonus tables and volatility_penalty = min(cv/100, 0.3). -/
theorem C3_legacy_confidence_formula (r_squared p_value volatility : ℚ) :
    analyze_trend_confidence r_squared p_value volatility "7d" =
      clamp01 (r_squared + spec_timeframe_bonus "7d" + spec_significance_bonus p_value
        - min (volatility / 100) 0.3) ∧
    analyze_trend_confidence r_squared p_value volatility "14d" =
      clamp01 (r_squared + spec_timeframe_bonus "14d" + spec_significance_bonus p_value
        - min (volatility / 100) 0.3) ∧
    analyze_trend_confidence r_squared p_value volatility "30d" =
      clamp01 (r_squared + spec_timeframe_bonus "30d" + spec_significance_bonus p_value
        - min (volatility / 100) 0.3) := by
  unfold analyze_trend_confidence clamp01 timeframe_boost spec_timeframe_bonus
    significance_boost spec_significance_bonus volatility_penalty
  norm_num [max_comm]

/-- C8: the read path caps the requested limit at 50 (default 10), and the
timeframe-to-cutoff map sends 1h/24h/7d/30d to now minus 1 hour, 24 hours,
7 days, 30 days, with every other string getting the 24-hour default. -/
theorem C8_read_path_limit_and_cutoff (now_h : ℚ) :
    (∀ r : ℤ, effective_limit (some r) = min r 50) ∧
    effective_limit none = 10 ∧
    get_timeframe_cutoff now_h "1h" = now_h - 1 ∧
    get_timeframe_cutoff now_h "24h" = now_h - 24 ∧
    get_timeframe_cutoff now_h "7d" = now_h - 7 * 24 ∧
    get_timeframe_cutoff now_h "30d" = now_h - 30 * 24 ∧
    (∀ timeframe, timeframe ≠ "1h" → timeframe ≠ "24h" → timeframe ≠ "7d" →
      timeframe ≠ "30d" →
      get_timeframe_cutoff now_h timeframe = get_timeframe_cutoff now_h "24h") := by
  refine ⟨fun r => rfl, rfl, ?_, ?_, ?_, ?_, ?_⟩
  · simp [get_timeframe_cutoff]
  · simp [get_timeframe_cutoff]
  · simp [get_timeframe_cutoff]
  · simp [get_timeframe_cutoff]
  · intro timeframe h1 h2 h3 h4
    simp [get_timeframe_cutoff, h1, h2, h3, h4]

/-- Witness for C8 at the unrecognized timeframe "45m". -/
theorem C8_witness :
    get_timeframe_cutoff 0 "45m" = get_timeframe_cutoff 0 "24h" :=
  (C8_read_path_limit_and_cutoff 0).2.2.2.2.2.2 "45m"
    (by decide) (by decide) (by decide) (by decide)

/-- C9: when every indicator input is missing, `calculate_confidence`
returns exactly 0.5 for every signal type: each component defaults to the
neutral 0.5 and no signal-specific adjustment fires at 0.5. -/
theorem C9_all_missing_gives_half :
    ∀ signal_type : Option String,
      ConfidenceModel.calculate_confidence none none none none signal_type = 0.5 := by
  intro signal_type
  unfold ConfidenceModel.calculate_confidence ConfidenceModel.trend_score
    ConfidenceModel.momentum_score ConfidenceModel.volatility_score
    ConfidenceModel.noise_score ConfidenceModel.apply_signal_adjustments
    ConfidenceModel.w_trend_strength ConfidenceModel.w_momentum
    ConfidenceModel.w_volatility ConfidenceModel.w_noise
  match signal_type with
  | none => norm_num
  | some s => split_ifs <;> norm_num

/-- C10: with fewer samples than the lookback, the adaptive volume
threshold is {spike: +∞, baseline: 0}, and no finite volume exceeds it. -/
theorem C10_insufficient_history_infinite_threshold
    (volume_series : List ℚ) (lookback : ℕ) (spike_sensitivity : ℚ)
    (h : volume_series.length < lookback) :
    (get_adaptive_volume_threshold volume_series lookback spike_sensitivity).spike_threshold = ⊤ ∧
    (get_adaptive_volume_threshold volume_series lookback spike_sensitivity).baseline = 0 ∧
    ∀ v : ℚ, ¬ ((get_adaptive_volume_threshold volume_series lookback
        spike_sensitivity).spike_threshold < (v : WithTop ℚ)) := by
  unfold get_adaptive_volume_threshold
  rw [if_pos h]
  exact ⟨rfl, rfl, fun v => not_top_lt⟩

/-- Every signal of the second detector block is a volume anomaly. -/
lemma volume_anomaly_types (w : List PricePoint) :
    ∀ s ∈ volume_anomaly_in_window w, s.signal_type = "volume_anomaly" := by
  unfold volume_anomaly_in_window
  dsimp only
  split_ifs <;> simp_all

/-- Every signal of the third detector block is a bottomed-out signal. -/
lemma bottomed_out_types (w : List PricePoint) :
    ∀ s ∈ bottomed_out_in_window w, s.signal_type = "bottomed_out" := by
  unfold bottomed_out_in_window
  dsimp only
  split_ifs <;> simp_all

/-- Every signal of the first detector block is a pump-and-dump signal. -/
lemma pump_dump_types (w : List PricePoint) :
    ∀ s ∈ pump_dump_in_window w, s.signal_type = "pump_and_dump" := by
  unfold pump_dump_in_window
  dsimp only
  split_ifs <;> simp_all

/-- C4 counterexample: on a 14-point window whose price peak lies at index
6 — in the first half of the window but not among its first 6 points — the
detector described by the claim (split into two halves) fires, while the
code emits no pump_and_dump signal. -/
theorem C4_counterexample :
    spec_pump_and_dump_fires exWin14 = true ∧
    (detect_signals_in_window exWin14).filter
      (fun s => s.signal_type == "pump_and_dump") = [] ∧
    12 ≤ exWin14.length := by
  refine ⟨?_, ?_, by decide⟩
  · norm_num [spec_pump_and_dump_fires, exWin14, listMin, listMax, listMean,
      List.foldl, min_def, max_def]
  · norm_num [detect_signals_in_window, pump_dump_in_window,
      volume_anomaly_in_window, bottomed_out_in_window, exWin14, listMin,
      listMax, listMean, List.foldl, min_def, max_def, List.filter]

/-- C4 amended: for every window of at least 12 points the detector splits
the prices at index 6 (first 6 points as the pump part, the remainder as
the dump part), fires exactly when pump% > 50 and dump% < −30 and the
pump-part volume-spike ratio (max/mean of the first 6 volumes, 1.0 when the
mean is not positive) is ≥ 3, with confidence clamp01((pump% + |dump%|)/120)
and detected_at the timestamp of index 6 (the start of the dump part). -/
theorem C4_pump_and_dump_rule (w : List PricePoint) (h : 12 ≤ w.length) :
    (detect_signals_in_window w).filter (fun s => s.signal_type == "pump_and_dump") =
      (let prices := w.map PricePoint.price
       let volumes := w.map PricePoint.volume
       let pump_pct := (listMax (prices.take 6) - listMin (prices.take 6))
           / listMin (prices.take 6) * 100
       let dump_pct := (listMin (prices.drop 6) - listMax (prices.take 6))
           / listMax (prices.take 6) * 100
       let spike := if listMean (volumes.take 6) > 0 then
           listMax (volumes.take 6) / listMean (volumes.take 6) else 1
       if pump_pct > 50 ∧ dump_pct < -30 ∧ spike ≥ 3 then
         [{ signal_type := "pump_and_dump",
            detected_at := ((w.drop 6).head?.map PricePoint.ts).getD 0,
            confidence := clamp01 ((pump_pct + |dump_pct|) / 120),
            trigger_price := some (listMax (prices.take 6)),
            volume_spike_factor := some spike,
            pump_percent := some pump_pct,
            dump_percent := some dump_pct,
            downtrend_percent := none,
            recovery_percent := none }]
       else []) := by
  have h7 : ¬ w.length < 7 := by omega
  unfold detect_signals_in_window
  rw [if_neg h7, List.filter_append, List.filter_append]
  have hv : (volume_anomaly_in_window w).filter
      (fun s => s.signal_type == "pump_and_dump") = [] := by
    rw [List.filter_eq_nil_iff]
    intro s hs
    simp [volume_anomaly_types w s hs]
  have hb : (bottomed_out_in_window w).filter
      (fun s => s.signal_type == "pump_and_dump") = [] := by
    rw [List.filter_eq_nil_iff]
    intro s hs
    simp [bottomed_out_types w s hs]
  have hp : (pump_dump_in_window w).filter
      (fun s => s.signal_type == "pump_and_dump") = pump_dump_in_window w := by
    rw [List.filter_eq_self]
    intro s hs
    simp [pump_dump_types w s hs]
  rw [hv, hb, hp, List.append_nil, List.append_nil]
  unfold pump_dump_in_window
  have h12 : 12 ≤ (w.map PricePoint.price).length := by
    rw [List.length_map]; exact h
  rw [if_pos h12]
  have h3 : 3 ≤ ((w.map PricePoint.price).take 6).length ∧
      3 ≤ ((w.map PricePoint.price).drop 6).length := by
    constructor
    · rw [List.length_take, List.length_map]; omega
    · rw [List.length_drop, List.length_map]; omega
  rw [if_pos h3]
  simp only []
  set p := (listMax ((w.map PricePoint.price).take 6) - listMin ((w.map PricePoint.price).take 6))
      / listMin ((w.map PricePoint.price).take 6) * 100 with hp2
  set d := (listMin ((w.map PricePoint.price).drop 6) - listMax ((w.map PricePoint.price).take 6))
      / listMax ((w.map PricePoint.price).take 6) * 100 with hd2
  set sp := (if listMean ((w.map PricePoint.volume).take 6) > 0 then
      listMax ((w.map PricePoint.volume).take 6) / listMean ((w.map PricePoint.volume).take 6)
    else 1) with hsp2
  by_cases hc : p > 50 ∧ d < -30 ∧ sp ≥ 3
  · rw [if_pos ⟨hc.1, hc.2.1⟩, if_pos ⟨hc.2.2, le_of_lt hc.1, le_of_lt hc.2.1⟩,
      if_pos hc]
    have hconf : min ((p + |d|) / 120) 1 = clamp01 ((p + |d|) / 120) := by
      unfold clamp01
      rw [max_eq_right]
      exact le_min (div_nonneg (add_nonneg (by linarith [hc.1]) (abs_nonneg d)) (by norm_num))
        zero_le_one
    rw [hconf]
  · rw [if_neg hc]
    by_cases h1 : p > 50 ∧ d < -30
    · rw [if_pos h1, if_neg]
      intro ⟨hsp3, _, _⟩
      exact hc ⟨h1.1, h1.2, hsp3⟩
    · rw [if_neg h1]

/-- Witness for C4 at a concrete firing window: pump% = 80,
dump% = −650/9, spike ratio exactly 3, detected_at at index 6. -/
theorem C4_witness :
    12 ≤ exWin14b.length ∧
    (detect_signals_in_window exWin14b).filter
        (fun s => s.signal_type == "pump_and_dump") =
      [{ signal_type := "pump_and_dump", detected_at := 6, confidence := 1,
         trigger_price := some 180, volume_spike_factor := some 3,
         pump_percent := some 80, dump_percent := some (-650 / 9),
         downtrend_percent := none, recovery_percent := none }] := by
  constructor
  · decide
  · rw [C4_pump_and_dump_rule exWin14b (by decide)]
    norm_num [exWin14b, listMin, listMax, listMean, List.foldl, min_def,
      max_def, clamp01, abs_of_nonneg]

/-- The weighted sum before adjustment and clamp. -/
lemma calculate_confidence_eq_none (adx mhp bbp p : Option ℚ) :
    ConfidenceModel.calculate_confidence adx mhp bbp p none =
      max 0 (min 1 (ConfidenceModel.w_trend_strength * ConfidenceModel.trend_score adx
        + ConfidenceModel.w_momentum * ConfidenceModel.momentum_score mhp
        + ConfidenceModel.w_volatility * ConfidenceModel.volatility_score bbp none
        + ConfidenceModel.w_noise * ConfidenceModel.noise_score p)) := rfl

/-- Unfolding of `calculate_confidence` at a present signal type. -/
lemma calculate_confidence_eq_some (adx mhp bbp p : Option ℚ) (s : String) :
    ConfidenceModel.calculate_confidence adx mhp bbp p (some s) =
      max 0 (min 1 (
        let base := ConfidenceModel.w_trend_strength * ConfidenceModel.trend_score adx
          + ConfidenceModel.w_momentum * ConfidenceModel.momentum_score mhp
          + ConfidenceModel.w_volatility * ConfidenceModel.volatility_score bbp (some s)
          + ConfidenceModel.w_noise * ConfidenceModel.noise_score p
        if s ≠ "" then
          ConfidenceModel.apply_signal_adjustments base s
            (ConfidenceModel.trend_score adx) (ConfidenceModel.momentum_score mhp)
        else base)) := rfl

/-- The statistical-noise component is non-increasing in the p-value. -/
lemma noise_score_antitone {p₁ p₂ : ℚ} (h : p₁ ≤ p₂) :
    ConfidenceModel.noise_score (some p₂) ≤ ConfidenceModel.noise_score (some p₁) := by
  unfold ConfidenceModel.noise_score
  dsimp only
  split_ifs <;> first | linarith | norm_num

/-- The signal-specific adjustment is monotone in the base confidence. -/
lemma apply_signal_adjustments_mono (s : String) (t m : ℚ) {b₁ b₂ : ℚ}
    (h : b₁ ≤ b₂) :
    ConfidenceModel.apply_signal_adjustments b₁ s t m ≤
      ConfidenceModel.apply_signal_adjustments b₂ s t m := by
  unfold ConfidenceModel.apply_signal_adjustments
  split_ifs <;> linarith

/-- The clamp to [0,1] is monotone. -/
lemma clamp_mono {x y : ℚ} (h : x ≤ y) : max 0 (min 1 x) ≤ max 0 (min 1 y) :=
  max_le_max le_rfl (min_le_min le_rfl h)

/-- C6: `calculate_confidence` is non-increasing in `recent_price_pvalue`
with all other inputs fixed. -/
theorem C6_confidence_antitone_in_pvalue (adx mhp bbp : Option ℚ)
    (st : Option String) (p₁ p₂ : ℚ) (h : p₁ ≤ p₂) :
    ConfidenceModel.calculate_confidence adx mhp bbp (some p₂) st ≤
      ConfidenceModel.calculate_confidence adx mhp bbp (some p₁) st := by
  have hn := noise_score_antitone h
  cases st with
  | none =>
    rw [calculate_confidence_eq_none, calculate_confidence_eq_none]
    apply clamp_mono
    unfold ConfidenceModel.w_trend_strength ConfidenceModel.w_momentum
      ConfidenceModel.w_volatility ConfidenceModel.w_noise
    linarith
  | some s =>
    rw [calculate_confidence_eq_some, calculate_confidence_eq_some]
    apply clamp_mono
    simp only []
    have hbase : ConfidenceModel.w_trend_strength * ConfidenceModel.trend_score adx
        + ConfidenceModel.w_momentum * ConfidenceModel.momentum_score mhp
        + ConfidenceModel.w_volatility * ConfidenceModel.volatility_score bbp (some s)
        + ConfidenceModel.w_noise * ConfidenceModel.noise_score (some p₂) ≤
        ConfidenceModel.w_trend_strength * ConfidenceModel.trend_score adx
        + ConfidenceModel.w_momentum * ConfidenceModel.momentum_score mhp
        + ConfidenceModel.w_volatility * ConfidenceModel.volatility_score bbp (some s)
        + ConfidenceModel.w_noise * ConfidenceModel.noise_score (some p₁) := by
      unfold ConfidenceModel.w_trend_strength ConfidenceModel.w_momentum
        ConfidenceModel.w_volatility ConfidenceModel.w_noise
      linarith
    by_cases hs : s = ""
    · subst hs
      simp only [ne_eq, not_true_eq_false, if_false]
      exact hbase
    · simp only [ne_eq, hs, not_false_eq_true, if_true]
      exact apply_signal_adjustments_mono s _ _ hbase

/-- Witness for C6 at p₁ = 0.01, p₂ = 0.5 with all other inputs missing. -/
theorem C6_witness :
    (0.01 : ℚ) ≤ 0.5 ∧
    ConfidenceModel.calculate_confidence none none none (some 0.5) none ≤
      ConfidenceModel.calculate_confidence none none none (some 0.01) none :=
  ⟨by norm_num,
   C6_confidence_antitone_in_pvalue none none none none 0.01 0.5 (by norm_num)⟩

/-- Splitting the weak count into the strict count plus the tie count. -/
lemma length_filter_le_split (current : ℚ) (l : List ℚ) :
    (l.filter (fun x => x ≤ current)).length
      = (l.filter (fun x => x < current)).length + l.count current := by
  induction l with
  | nil => simp
  | cons a t ih =>
    rcases lt_trichotomy a current with hlt | heq | hgt
    · have h1 : a ≤ current := le_of_lt hlt
      have h2 : ¬ a = current := ne_of_lt hlt
      simp [List.filter_cons, List.count_cons, hlt, h1, h2, ih]
      omega
    · subst heq
      simp [List.filter_cons, List.count_cons, lt_irrefl, ih]
      omega
    · have h1 : ¬ a ≤ current := not_le_of_lt hgt
      have h2 : ¬ a < current := not_lt_of_gt hgt
      have h3 : ¬ a = current := (ne_of_gt hgt)
      simp [List.filter_cons, List.count_cons, h1, h2, h3, ih]

/-- C7 counterexample: with a history of twenty values all equal to the
current value, the helper returns 52.5, not the ≤-fraction scaled to 0-100
(which would be 100). -/
theorem C7_counterexample :
    ConfidenceModel.calculate_histogram_percentile 5 hist20 = some (105 / 2) ∧
    ((105 : ℚ) / 2) ≠
      (((hist20.filter (fun x => x ≤ 5)).length : ℚ) / hist20.length) * 100 := by
  constructor
  · norm_num [ConfidenceModel.calculate_histogram_percentile,
      ConfidenceModel.percentileofscore_rank, hist20, List.filter]
  · norm_num [hist20, List.filter]

/-- C7 amended: the helper returns None for histories shorter than 20, and
the scipy rank percentile it computes coincides with "fraction of history ≤
current, scaled 0-100" whenever at most one history value ties the current
value. -/
theorem C7_histogram_percentile (current : ℚ) (hist : List ℚ) :
    (hist.length < 20 →
      ConfidenceModel.calculate_histogram_percentile current hist = none) ∧
    (20 ≤ hist.length → hist.count current ≤ 1 →
      ConfidenceModel.calculate_histogram_percentile current hist =
        some ((((hist.filter (fun x => x ≤ current)).length : ℚ) / hist.length) * 100)) := by
  constructor
  · intro h
    unfold ConfidenceModel.calculate_histogram_percentile
    rw [if_pos (Or.inr h)]
  · intro hlen hcount
    unfold ConfidenceModel.calculate_histogram_percentile
      ConfidenceModel.percentileofscore_rank
    have hne : ¬ (hist.isEmpty ∨ hist.length < 20) := by
      rcases hist with _ | ⟨a, t⟩
      · simp at hlen
      · simp only [List.length_cons] at hlen ⊢
        simp only [List.isEmpty_cons, Bool.false_eq_true, false_or]
        omega
    have hn0 : ¬ hist.length = 0 := by omega
    rw [if_neg hne, if_neg hn0]
    have hsplit := length_filter_le_split current hist
    simp only [Option.some.injEq]
    rcases Nat.le_one_iff_eq_zero_or_eq_one.mp hcount with h0 | h1
    · rw [h0] at hsplit
      have heq : (hist.filter (fun x => x ≤ current)).length
          = (hist.filter (fun x => x < current)).length := by omega
      rw [heq, if_neg (lt_irrefl _)]
      push_cast
      ring
    · rw [h1] at hsplit
      rw [hsplit, if_pos (by omega : (hist.filter (fun x => x < current)).length
        < (hist.filter (fun x => x < current)).length + 1)]
      push_cast
      ring

/-- Witness for C7 at the distinct history 0..19 and current value 5:
six history values are ≤ 5, so the helper returns 30. -/
theorem C7_witness :
    ConfidenceModel.calculate_histogram_percentile 5 hist20d = some 30 := by
  have h := (C7_histogram_percentile 5 hist20d).2 (by decide)
    (by norm_num [hist20d, List.count_cons])
  rw [h]
  norm_num [hist20d, List.filter]

/-- Witness for C10 at a 3-element series with the default lookback 30. -/
theorem C10_witness :
    ([1, 2, 3] : List ℚ).length < 30 ∧
    (get_adaptive_volume_threshold [1, 2, 3] 30 3).spike_threshold = ⊤ :=
  ⟨by decide,
   (C10_insufficient_history_infinite_threshold [1, 2, 3] 30 3 (by decide)).1⟩

end VibeCharting
